import Mathlib

/-!
Shallow embedding of the car-app real-time ride coordination engine.

The embedding covers:
* the `Ride` mongoose model and its instance methods
  (`updateParticipantLocation`, `addChatMessage`, `startRide`, `endRide`,
  `addParticipant`, `removeParticipant`);
* the `Car` mongoose model's photo handling (`addPhoto` and the pre-save
  hook that enforces a single primary photo);
* the socket connection handler module: the process-wide
  `connectedUsers` map and `rideRooms` map, and the event handlers
  `authenticate`, `join_ride`, `leave_ride`, `update_location`,
  `send_message`, `start_ride`, `end_ride`, `typing` and `disconnect`.

JS `Map` objects are modelled as association lists with update-in-place
semantics (`mapSet` replaces the first binding, preserving its position,
and appends otherwise, exactly like `Map.prototype.set`); JS `Set`
objects are modelled as duplicate-free lists in insertion order.
`new Date()` is modelled by an explicit `now : Nat` argument threaded
into each handler; mongoose `save()` on a ride is modelled by writing
the updated ride back into the ride store.  Subdocuments that none of
the verified properties touch (`route`, `settings`, `stats`, `weather`,
ride photos) are omitted from the `Ride` structure.
-/

namespace CarApp

/-! ### JS Map / Set primitives -/

/-- `Map.prototype.get`: the value of the first binding of `k`. -/
def mapGet {α : Type} : List (String × α) → String → Option α
  | [], _ => none
  | e :: es, k => if e.1 == k then some e.2 else mapGet es k

/-- `Map.prototype.set`: replace the first binding of `k` in place, or
append a new binding at the end. -/
def mapSet {α : Type} : List (String × α) → String → α → List (String × α)
  | [], k, v => [(k, v)]
  | e :: es, k, v => if e.1 == k then (k, v) :: es else e :: mapSet es k v

/-- `Map.prototype.delete`: drop the binding of `k` (bindings are unique
in a JS map, so filtering is equivalent). -/
def mapDelete {α : Type} (m : List (String × α)) (k : String) : List (String × α) :=
  m.filter (fun e => e.1 != k)

/-- `Map.prototype.has`. -/
def mapHas {α : Type} (m : List (String × α)) (k : String) : Bool :=
  (mapGet m k).isSome

/-- `Set.prototype.add`: append unless already present. -/
def setAdd {β : Type} [BEq β] (s : List β) (x : β) : List β :=
  if s.contains x then s else s ++ [x]

/-- `Set.prototype.delete` (members are unique in a JS set). -/
def setDelete {β : Type} [BEq β] (s : List β) (x : β) : List β :=
  s.filter (fun y => y != x)

/-- The two-step idiom
`if (!m.has(k)) m.set(k, new Set()); m.get(k).add(x)`
used for `rideRooms`, and `socket.join(room)` on the socket.io
room-to-sockets table. -/
def groupAdd {β : Type} [BEq β] (m : List (String × List β)) (k : String) (x : β) :
    List (String × List β) :=
  mapSet m k (setAdd ((mapGet m k).getD []) x)

/-! ### Ride model (`rideSchema` and its methods) -/

/-- `rideSchema.status` enum. -/
inductive RideStatus
  | PLANNING
  | ACTIVE
  | COMPLETED
  | CANCELLED
deriving DecidableEq, Repr

/-- `participants.status` enum. -/
inductive PartStatus
  | INVITED
  | CONFIRMED
  | DECLINED
  | JOINED
  | LEFT
deriving DecidableEq, Repr

structure Coordinates where
  lat : Int
  lng : Int
deriving DecidableEq, Repr

/-- The `currentLocation` subdocument stored on a participant. -/
structure LocSnapshot where
  coordinates : Coordinates
  timestamp : Nat
  speed : Nat
  heading : Nat
deriving DecidableEq, Repr

/-- The `location` object a client sends with `update_location`
(`speed` and `heading` may be absent: the code applies `|| 0`). -/
structure LocationInput where
  coordinates : Coordinates
  speed : Option Nat
  heading : Option Nat
deriving DecidableEq, Repr

/-- One element of `rideSchema.participants`. -/
structure Participant where
  user : String
  status : PartStatus
  currentLocation : Option LocSnapshot
  isOnline : Bool
deriving DecidableEq, Repr

/-- One element of `rideSchema.chat`.  The schema default for
`timestamp` is `Date.now`, i.e. the server clock at insertion. -/
structure ChatMsg where
  user : String
  message : String
  timestamp : Nat
  type : String
deriving DecidableEq, Repr

/-- `rideSchema.schedule` (`startTime` is required, `endTime` optional). -/
structure Schedule where
  startTime : Nat
  endTime : Option Nat
deriving DecidableEq, Repr

structure Ride where
  organizer : String
  status : RideStatus
  schedule : Schedule
  participants : List Participant
  chat : List ChatMsg
deriving DecidableEq, Repr

/-- Apply `f` to the first list element satisfying `p`; the JS idiom
`const x = list.find(p); if (x) mutate(x)`. -/
def updateFirst {α : Type} (p : α → Bool) (f : α → α) : List α → List α
  | [] => []
  | x :: xs => if p x then f x :: xs else x :: updateFirst p f xs

/-- `rideSchema.methods.updateParticipantLocation`: find the caller's
participant record; if present, overwrite its `currentLocation` with a
fresh snapshot (server timestamp, `speed`/`heading` defaulted to 0) and
set `isOnline`; then save.  If no record matches this is a no-op save. -/
def Ride.updateParticipantLocation (r : Ride) (userId : String) (loc : LocationInput)
    (now : Nat) : Ride :=
  { r with participants :=
      updateFirst (fun p => p.user == userId)
                  (fun p =>
                    { p with
                      currentLocation := some
                        { coordinates := loc.coordinates,
                          timestamp := now,
                          speed := loc.speed.getD 0,
                          heading := loc.heading.getD 0 },
                      isOnline := true })
                  r.participants }

/-- `rideSchema.methods.addChatMessage`: push onto `chat` and save; the
`timestamp` field takes its schema default, the server clock. -/
def Ride.addChatMessage (r : Ride) (userId message ty : String) (now : Nat) : Ride :=
  { r with chat := r.chat ++ [{ user := userId, message := message, timestamp := now, type := ty }] }

/-- `rideSchema.methods.startRide`: unconditionally set `status` to
`ACTIVE` and stamp `schedule.startTime` with the server clock; no check
of the current status. -/
def Ride.startRide (r : Ride) (now : Nat) : Ride :=
  { r with status := .ACTIVE, schedule := { r.schedule with startTime := now } }

/-- `rideSchema.methods.endRide`: unconditionally set `status` to
`COMPLETED` and stamp `schedule.endTime` with the server clock; no check
of the current status. -/
def Ride.endRide (r : Ride) (now : Nat) : Ride :=
  { r with status := .COMPLETED, schedule := { r.schedule with endTime := some now } }

example :
    (Ride.startRide
      { organizer := "a", status := .COMPLETED,
        schedule := { startTime := 1, endTime := some 2 },
        participants := [], chat := [] } 9).status = .ACTIVE := by decide

/-! ### Car model (`carSchema`): photos and the single-primary invariant -/

/-- One element of `carSchema.photos`. -/
structure Photo where
  url : String
  caption : String
  isPrimary : Bool
  uploadedAt : Nat
deriving DecidableEq, Repr

/-- The `Car` document restricted to the fields the photo logic reads
(other subdocuments are irrelevant to the photo invariant). -/
structure Car where
  owner : String
  photos : List Photo
deriving DecidableEq, Repr

/-- The body of the `forEach` in the car pre-save hook: keep the
`isPrimary` flag on the first primary photo (tracked by the
`foundPrimary` boolean) and clear it on every later one. -/
def keepFirstPrimary : List Photo → Bool → List Photo
  | [], _ => []
  | p :: ps, found =>
    if p.isPrimary && !found then p :: keepFirstPrimary ps true
    else if p.isPrimary then { p with isPrimary := false } :: keepFirstPrimary ps found
    else p :: keepFirstPrimary ps found

/-- `carSchema.pre('save', ...)`: if more than one photo carries the
primary flag, keep only the first. -/
def carPreSave (c : Car) : Car :=
  let primaryPhotos := c.photos.filter (fun photo => photo.isPrimary)
  if primaryPhotos.length > 1 then { c with photos := keepFirstPrimary c.photos false }
  else c

/-- `carSchema.methods.addPhoto`: if the new photo is primary, clear
the flag on all stored photos; push; save (which runs the pre-save
hook). -/
def Car.addPhoto (c : Car) (photoData : Photo) : Car :=
  let c1 :=
    if photoData.isPrimary then
      { c with photos := c.photos.map (fun photo => { photo with isPrimary := false }) }
    else c
  carPreSave { c1 with photos := c1.photos ++ [photoData] }

/-- Number of photos flagged primary. -/
def Car.primaryCount (c : Car) : Nat :=
  (c.photos.filter (fun photo => photo.isPrimary)).length

/-! ### User model (the fields the socket module touches) -/

/-- One element of `userSchema.friends`. -/
structure Friend where
  user : String
  status : String
deriving DecidableEq, Repr

/-- A persisted `User` document restricted to the fields the socket
module reads or writes. -/
structure UserRec where
  username : String
  isOnline : Bool
  lastSeen : Nat
  friends : List Friend
deriving DecidableEq, Repr

/-- The Mongo query `User.find` on the dot-paths `friends.user = uid`
and `friends.status = ACCEPTED`, used to notify contacts: dot-path
conditions without `$elemMatch` may be satisfied by different array
elements. -/
def friendsOf (users : List (String × UserRec)) (uid : String) : List (String × UserRec) :=
  users.filter (fun e =>
    e.2.friends.any (fun f => f.user == uid) && e.2.friends.any (fun f => f.status == "ACCEPTED"))

/-! ### Socket server state and outbound events -/

/-- The mutable fields the handlers read off a socket.io socket:
`socket.id`, `socket.userId` (set by `authenticate`) and
`socket.user.username`. -/
structure Socket where
  sid : Nat
  userId : Option String
  username : String
deriving DecidableEq, Repr

/-- The whole state a handler can observe or mutate: the persisted
stores (`Ride` and `User` collections) and the module-level maps
`connectedUsers` (userId to socket id) and `rideRooms` (rideId to set
of user ids), plus the socket.io room-to-sockets table behind
`socket.join` / `socket.leave` / `io.to` / `socket.to`. -/
structure ServerState where
  rides : List (String × Ride)
  users : List (String × UserRec)
  connectedUsers : List (String × Nat)
  rideRooms : List (String × List String)
  ioRooms : List (String × List Nat)
deriving DecidableEq, Repr

/-- Payloads of outbound events, one constructor per payload shape. -/
inductive Payload
  | errMsg (message : String)
  | authed (userId username : String) (activeRides : List String)
  | friendPresence (userId username : String)
  | joinedRide (rideId : String)
  | participantEvt (userId username : String)
  | leftRide (rideId : String)
  | locationEvt (userId username : String) (location : LocSnapshot)
  | newMessage (userId username message ty : String) (timestamp : Nat)
  | rideStarted (rideId : String) (startTime : Nat)
  | rideEnded (rideId : String) (endTime : Option Nat)
  | typingEvt (userId username : String) (isTyping : Bool)
deriving DecidableEq, Repr

/-- The three delivery primitives the module uses:
`socket.emit` (one connection), `socket.to(room).emit` (room except
sender) and `io.to(room).emit` (full room including sender). -/
inductive OutEvent
  | emit (sid : Nat) (name : String) (payload : Payload)
  | toRoomExcept (room : String) (senderSid : Nat) (name : String) (payload : Payload)
  | toRoomAll (room : String) (name : String) (payload : Payload)
deriving DecidableEq, Repr

/-- Result of running one handler: the state afterwards, the socket's
fields afterwards, and the outbound events in emission order. -/
structure HandlerResult where
  state : ServerState
  socket : Socket
  events : List OutEvent
deriving DecidableEq, Repr

/-! ### Event handlers (the socket connection module) -/

/-- The `authenticate` handler.  `verify` models `jwt.verify` composed
with reading `decoded.userId` (returns `none` exactly when `jwt.verify`
throws); an absent token is rejected up front; a verified id that
matches no stored user is rejected as an invalid token.  On success:
store the connection in `connectedUsers` (overwriting any previous
binding for this user id), mark the user online, join every `ACTIVE`
ride the user participates in (socket.io room and `rideRooms` set),
acknowledge, then notify accepted contacts that are connected. -/
def onAuthenticate (st : ServerState) (sock : Socket) (token : Option String)
    (verify : String → Option String) (now : Nat) : HandlerResult :=
  match token with
  | none => ⟨st, sock, [.emit sock.sid "auth_error" (.errMsg "No token provided")]⟩
  | some tok =>
    match verify tok with
    | none => ⟨st, sock, [.emit sock.sid "auth_error" (.errMsg "Authentication failed")]⟩
    | some uid =>
      match mapGet st.users uid with
      | none => ⟨st, sock, [.emit sock.sid "auth_error" (.errMsg "Invalid token")]⟩
      | some user =>
        let sock1 : Socket := { sock with userId := some uid, username := user.username }
        let cu1 := mapSet st.connectedUsers uid sock.sid
        let users1 := mapSet st.users uid { user with isOnline := true, lastSeen := now }
        let activeRides := st.rides.filter (fun e =>
          e.2.participants.any (fun p => p.user == uid) && e.2.status == RideStatus.ACTIVE)
        let ioRooms1 := activeRides.foldl
          (fun acc e => groupAdd acc ("ride_" ++ e.1) sock.sid) st.ioRooms
        let rideRooms1 := activeRides.foldl
          (fun acc e => groupAdd acc e.1 uid) st.rideRooms
        let st1 : ServerState :=
          { st with connectedUsers := cu1, users := users1,
                    ioRooms := ioRooms1, rideRooms := rideRooms1 }
        let onlineEvts := (friendsOf users1 uid).filterMap (fun e =>
          (mapGet cu1 e.1).map (fun fsid =>
            OutEvent.emit fsid "friend_online" (.friendPresence uid user.username)))
        ⟨st1, sock1,
          OutEvent.emit sock.sid "authenticated" (.authed uid user.username (activeRides.map (fun e => e.1)))
            :: onlineEvts⟩

/-- The `join_ride` handler: guard on authentication (error event),
look up the ride (error event if absent), check that the caller has a
participant record of any status (error event otherwise); on success
join the socket.io room, add the caller to the `rideRooms` set,
acknowledge to the sender and notify the rest of the room. -/
def onJoinRide (st : ServerState) (sock : Socket) (rideId : String) : HandlerResult :=
  match sock.userId with
  | none => ⟨st, sock, [.emit sock.sid "error" (.errMsg "Not authenticated")]⟩
  | some uid =>
    match mapGet st.rides rideId with
    | none => ⟨st, sock, [.emit sock.sid "error" (.errMsg "Ride not found")]⟩
    | some ride =>
      if ride.participants.any (fun p => p.user == uid) then
        ⟨{ st with ioRooms := groupAdd st.ioRooms ("ride_" ++ rideId) sock.sid,
                   rideRooms := groupAdd st.rideRooms rideId uid },
          sock,
          [.emit sock.sid "joined_ride" (.joinedRide rideId),
           .toRoomExcept ("ride_" ++ rideId) sock.sid "participant_joined"
             (.participantEvt uid sock.username)]⟩
      else
        ⟨st, sock, [.emit sock.sid "error" (.errMsg "Not a participant of this ride")]⟩

/-- The `leave_ride` handler: silent when unauthenticated; leave the
socket.io room; if `rideRooms` has an entry, remove the caller from its
set and discard the entry when the set becomes empty; acknowledge and
notify the rest of the room.  (socket.io prunes a room that loses its
last socket, mirrored here.) -/
def onLeaveRide (st : ServerState) (sock : Socket) (rideId : String) : HandlerResult :=
  match sock.userId with
  | none => ⟨st, sock, []⟩
  | some uid =>
    let room := "ride_" ++ rideId
    let ioRooms1 :=
      let s1 := setDelete ((mapGet st.ioRooms room).getD []) sock.sid
      if s1.isEmpty then mapDelete st.ioRooms room else mapSet st.ioRooms room s1
    let rideRooms1 :=
      match mapGet st.rideRooms rideId with
      | none => st.rideRooms
      | some s =>
        let s1 := setDelete s uid
        if s1.length == 0 then mapDelete st.rideRooms rideId
        else mapSet st.rideRooms rideId s1
    ⟨{ st with ioRooms := ioRooms1, rideRooms := rideRooms1 },
      sock,
      [.emit sock.sid "left_ride" (.leftRide rideId),
       .toRoomExcept room sock.sid "participant_left" (.participantEvt uid sock.username)]⟩

/-- The `update_location` handler: silent when unauthenticated or when
the ride does not exist; otherwise run the model method
`updateParticipantLocation` (a no-op when the caller has no participant
record), save the ride, and broadcast the fresh snapshot to the room
except the sender — with no check of the participant record or of the
ride status before broadcasting. -/
def onUpdateLocation (st : ServerState) (sock : Socket) (rideId : String)
    (location : LocationInput) (now : Nat) : HandlerResult :=
  match sock.userId with
  | none => ⟨st, sock, []⟩
  | some uid =>
    match mapGet st.rides rideId with
    | none => ⟨st, sock, []⟩
    | some ride =>
      let ride1 := ride.updateParticipantLocation uid location now
      ⟨{ st with rides := mapSet st.rides rideId ride1 },
        sock,
        [.toRoomExcept ("ride_" ++ rideId) sock.sid "participant_location"
           (.locationEvt uid sock.username
             { coordinates := location.coordinates,
               timestamp := now,
               speed := location.speed.getD 0,
               heading := location.heading.getD 0 })]⟩

/-- The payload of a `send_message` event.  The handler destructures
only `rideId`, `message` and `type` (defaulting to `TEXT`); a
client-supplied `timestamp` field is carried here to state that the
handler never reads it. -/
structure MessageData where
  rideId : String
  message : String
  type : Option String
  timestamp : Option Nat
deriving DecidableEq, Repr

/-- The `send_message` handler: silent when unauthenticated or when the
ride does not exist; append the message to the persisted chat log and
broadcast `new_message` to the full room including the sender, stamped
with the server clock. -/
def onSendMessage (st : ServerState) (sock : Socket) (data : MessageData)
    (now : Nat) : HandlerResult :=
  match sock.userId with
  | none => ⟨st, sock, []⟩
  | some uid =>
    match mapGet st.rides data.rideId with
    | none => ⟨st, sock, []⟩
    | some ride =>
      let ty := data.type.getD "TEXT"
      let ride1 := ride.addChatMessage uid data.message ty now
      ⟨{ st with rides := mapSet st.rides data.rideId ride1 },
        sock,
        [.toRoomAll ("ride_" ++ data.rideId) "new_message"
           (.newMessage uid sock.username data.message ty now)]⟩

/-- The `start_ride` handler: silent when unauthenticated or when the
ride does not exist; error event unless the caller is the organizer; on
success run `startRide` (which stamps the start time and sets the
status with no precondition on the current status), save, and
broadcast `ride_started` with the stamped start time to the full
room. -/
def onStartRide (st : ServerState) (sock : Socket) (rideId : String) (now : Nat) :
    HandlerResult :=
  match sock.userId with
  | none => ⟨st, sock, []⟩
  | some uid =>
    match mapGet st.rides rideId with
    | none => ⟨st, sock, []⟩
    | some ride =>
      if ride.organizer != uid then
        ⟨st, sock, [.emit sock.sid "error" (.errMsg "Only organizer can start ride")]⟩
      else
        let ride1 := ride.startRide now
        ⟨{ st with rides := mapSet st.rides rideId ride1 },
          sock,
          [.toRoomAll ("ride_" ++ rideId) "ride_started"
             (.rideStarted rideId ride1.schedule.startTime)]⟩

/-- The `end_ride` handler: silent when unauthenticated or when the
ride does not exist; error event unless the caller is the organizer; on
success run `endRide` (which stamps the end time and sets the status
with no precondition on the current status), save, and broadcast
`ride_ended` with the stamped end time to the full room. -/
def onEndRide (st : ServerState) (sock : Socket) (rideId : String) (now : Nat) :
    HandlerResult :=
  match sock.userId with
  | none => ⟨st, sock, []⟩
  | some uid =>
    match mapGet st.rides rideId with
    | none => ⟨st, sock, []⟩
    | some ride =>
      if ride.organizer != uid then
        ⟨st, sock, [.emit sock.sid "error" (.errMsg "Only organizer can end ride")]⟩
      else
        let ride1 := ride.endRide now
        ⟨{ st with rides := mapSet st.rides rideId ride1 },
          sock,
          [.toRoomAll ("ride_" ++ rideId) "ride_ended"
             (.rideEnded rideId ride1.schedule.endTime)]⟩

/-- The `typing` handler: silent when unauthenticated; otherwise relay
the indicator to the room except the sender, with no state change. -/
def onTyping (st : ServerState) (sock : Socket) (rideId : String) (isTyping : Bool) :
    HandlerResult :=
  match sock.userId with
  | none => ⟨st, sock, []⟩
  | some uid =>
    ⟨st, sock,
      [.toRoomExcept ("ride_" ++ rideId) sock.sid "user_typing"
         (.typingEvt uid sock.username isTyping)]⟩

/-- The sweep over `rideRooms` in the disconnect handler: delete the
user from every room's set and discard entries whose set becomes
empty. -/
def pruneUser (rr : List (String × List String)) (uid : String) :
    List (String × List String) :=
  (rr.map (fun e => (e.1, setDelete e.2 uid))).filter (fun e => !e.2.isEmpty)

/-- The `disconnect` handler: nothing when the connection never
authenticated; otherwise delete the user's binding in
`connectedUsers`, mark the user offline with a last-seen stamp, remove
the user from every `rideRooms` set (discarding emptied entries), and
send `friend_offline` to every accepted contact that still has a
connection. -/
def onDisconnect (st : ServerState) (sock : Socket) (now : Nat) : HandlerResult :=
  match sock.userId with
  | none => ⟨st, sock, []⟩
  | some uid =>
    let cu1 := mapDelete st.connectedUsers uid
    let users1 :=
      match mapGet st.users uid with
      | none => st.users
      | some u => mapSet st.users uid { u with isOnline := false, lastSeen := now }
    let rideRooms1 := pruneUser st.rideRooms uid
    let offlineEvts := (friendsOf users1 uid).filterMap (fun e =>
      (mapGet cu1 e.1).map (fun fsid =>
        OutEvent.emit fsid "friend_offline" (.friendPresence uid sock.username)))
    ⟨{ st with connectedUsers := cu1, users := users1, rideRooms := rideRooms1 },
      sock, offlineEvts⟩

/-- The inbound events other than `authenticate`, with their payloads. -/
inductive Inbound
  | join_ride (rideId : String)
  | leave_ride (rideId : String)
  | update_location (rideId : String) (location : LocationInput)
  | send_message (data : MessageData)
  | start_ride (rideId : String)
  | end_ride (rideId : String)
  | typing (rideId : String) (isTyping : Bool)
  | disconnect
deriving DecidableEq, Repr

/-- Dispatch table over the inbound events other than `authenticate`. -/
def handleInbound (st : ServerState) (sock : Socket) (ev : Inbound) (now : Nat) :
    HandlerResult :=
  match ev with
  | .join_ride rideId => onJoinRide st sock rideId
  | .leave_ride rideId => onLeaveRide st sock rideId
  | .update_location rideId location => onUpdateLocation st sock rideId location now
  | .send_message data => onSendMessage st sock data now
  | .start_ride rideId => onStartRide st sock rideId now
  | .end_ride rideId => onEndRide st sock rideId now
  | .typing rideId isTyping => onTyping st sock rideId isTyping
  | .disconnect => onDisconnect st sock now

/-! ### Lemmas about the map and set primitives -/

theorem mapGet_mapSet_self {α : Type} (m : List (String × α)) (k : String) (v : α) :
    mapGet (mapSet m k v) k = some v := by
  induction m with
  | nil => simp [mapGet, mapSet]
  | cons e es ih =>
    by_cases h : e.1 = k
    · simp [mapSet, mapGet, h]
    · have hb : (e.1 == k) = false := by simp [h]
      simp [mapSet, mapGet, hb, ih]

theorem mapGet_mapDelete_self {α : Type} (m : List (String × α)) (k : String) :
    mapGet (mapDelete m k) k = none := by
  induction m with
  | nil => simp [mapDelete, mapGet]
  | cons e es ih =>
    by_cases h : e.1 = k
    · simpa [mapDelete, List.filter_cons, h] using ih
    · have hb : (e.1 == k) = false := by simp [h]
      simpa [mapDelete, List.filter_cons, mapGet, hb, h] using ih

theorem mapSet_mapSet_self {α : Type} (m : List (String × α)) (k : String) (v w : α) :
    mapSet (mapSet m k v) k w = mapSet m k w := by
  induction m with
  | nil => simp [mapSet]
  | cons e es ih =>
    by_cases h : e.1 = k
    · simp [mapSet, h]
    · have hb : (e.1 == k) = false := by simp [h]
      simp [mapSet, hb, ih]

theorem setAdd_idem {β : Type} [BEq β] [LawfulBEq β] (s : List β) (x : β) :
    setAdd (setAdd s x) x = setAdd s x := by
  unfold setAdd
  by_cases h : x ∈ s
  · simp [h]
  · simp [h]

theorem groupAdd_idem {β : Type} [BEq β] [LawfulBEq β]
    (m : List (String × List β)) (k : String) (x : β) :
    groupAdd (groupAdd m k x) k x = groupAdd m k x := by
  unfold groupAdd
  rw [mapGet_mapSet_self]
  simp only [Option.getD_some]
  rw [setAdd_idem, mapSet_mapSet_self]

theorem mem_mapSet {α : Type} {m : List (String × α)} {k : String} {v : α}
    {e : String × α} (h : e ∈ mapSet m k v) : e ∈ m ∨ e = (k, v) := by
  induction m with
  | nil =>
    simp [mapSet] at h
    right
    simp [h]
  | cons f fs ih =>
    by_cases hf : f.1 = k
    · simp [mapSet, hf] at h
      rcases h with h | h
      · right; simp [h]
      · left; exact List.mem_cons_of_mem _ h
    · have hb : (f.1 == k) = false := by simp [hf]
      simp [mapSet, hb] at h
      rcases h with h | h
      · left; simp [h]
      · rcases ih h with h1 | h1
        · left; exact List.mem_cons_of_mem _ h1
        · right; exact h1

theorem updateFirst_id {α : Type} (p : α → Bool) (f : α → α) (l : List α)
    (h : ∀ x ∈ l, p x = false) : updateFirst p f l = l := by
  induction l with
  | nil => rfl
  | cons x xs ih =>
    have hx := h x (List.mem_cons_self x xs)
    simp [updateFirst, hx]
    exact ih (fun y hy => h y (List.mem_cons_of_mem _ hy))

/-! ### The single-primary-photo invariant (claim C10) -/

theorem keepFirstPrimary_count (ps : List Photo) :
    ((keepFirstPrimary ps true).filter (fun p => p.isPrimary)).length = 0 ∧
    ((keepFirstPrimary ps false).filter (fun p => p.isPrimary)).length ≤ 1 := by
  induction ps with
  | nil => simp [keepFirstPrimary]
  | cons p ps ih =>
    by_cases hp : p.isPrimary
    · constructor
      · simp [keepFirstPrimary, hp, List.filter_cons, ih.1]
      · simp [keepFirstPrimary, hp, List.filter_cons, ih.1]
    · constructor
      · simp [keepFirstPrimary, hp, List.filter_cons, ih.1]
      · simpa [keepFirstPrimary, hp, List.filter_cons] using ih.2

theorem carPreSave_primaryCount (c : Car) : (carPreSave c).primaryCount ≤ 1 := by
  unfold carPreSave Car.primaryCount
  by_cases h : (c.photos.filter (fun p => p.isPrimary)).length > 1
  · simpa [h] using (keepFirstPrimary_count c.photos).2
  · simp [h]
    omega

theorem filter_primary_clear (l : List Photo) :
    (l.map (fun p => { p with isPrimary := false })).filter (fun p => p.isPrimary) = [] := by
  induction l with
  | nil => rfl
  | cons p ps ih => simp [List.filter_cons, ih]

theorem addPhoto_primary_clears (c : Car) (pd : Photo) (hpd : pd.isPrimary = true) :
    (c.addPhoto pd).photos =
      c.photos.map (fun p => { p with isPrimary := false }) ++ [pd] := by
  unfold Car.addPhoto carPreSave
  simp only [hpd, if_pos rfl]
  simp [List.filter_append, List.filter_cons, filter_primary_clear, hpd]

/-! ### Concrete sample data for witnesses and counterexamples -/

def sockAlice : Socket := { sid := 1, userId := some "alice", username := "alice" }

def sockBob : Socket := { sid := 2, userId := some "bob", username := "bob" }

def sockAnon : Socket := { sid := 3, userId := none, username := "" }

def partAlice : Participant :=
  { user := "alice", status := .CONFIRMED, currentLocation := none, isOnline := false }

/-- A ride that has already completed (`endTime` stamped at 50). -/
def rideDone : Ride :=
  { organizer := "alice", status := .COMPLETED,
    schedule := { startTime := 0, endTime := some 50 },
    participants := [partAlice], chat := [] }

/-- A ride still in the planning stage. -/
def ridePlan : Ride :=
  { organizer := "alice", status := .PLANNING,
    schedule := { startTime := 0, endTime := none },
    participants := [partAlice], chat := [] }

def stDone : ServerState :=
  { rides := [("r1", rideDone)], users := [], connectedUsers := [],
    rideRooms := [], ioRooms := [] }

def stPlan : ServerState :=
  { rides := [("r1", ridePlan)], users := [], connectedUsers := [],
    rideRooms := [], ioRooms := [] }

def loc0 : LocationInput :=
  { coordinates := { lat := 1, lng := 2 }, speed := none, heading := none }

/-! ### Claim C1 — start_ride -/

/-- C1: counterexample.  The claim says `start_ride` succeeds only when
the session's status is `PLANNING`.  On a `COMPLETED` ride the
organizer's `start_ride` nevertheless succeeds: the handler performs no
status check, broadcasts `ride_started` and moves the status to
`ACTIVE`. -/
theorem C1_counterexample :
    rideDone.status = RideStatus.COMPLETED ∧
    (onStartRide stDone sockAlice "r1" 100).events =
      [.toRoomAll "ride_r1" "ride_started" (.rideStarted "r1" 100)] ∧
    (mapGet (onStartRide stDone sockAlice "r1" 100).state.rides "r1").map
        (fun r => r.status) = some RideStatus.ACTIVE := by
  decide

/-- C1 (amended): for every `start_ride` on an existing session by an
authenticated requester, the operation succeeds exactly when the
requester equals the organizer, with no precondition on the session's
status; a non-organizer receives the error event and the state is
unchanged; on success the status becomes `ACTIVE`, the start time is
stamped with the server clock and persisted, and `ride_started` is
broadcast to the full room including the sender. -/
theorem C1_start_ride_organizer_only (st : ServerState) (sock : Socket)
    (rideId uid : String) (ride : Ride) (now : Nat)
    (hauth : sock.userId = some uid)
    (hride : mapGet st.rides rideId = some ride) :
    (uid ≠ ride.organizer →
      onStartRide st sock rideId now =
        ⟨st, sock, [.emit sock.sid "error" (.errMsg "Only organizer can start ride")]⟩) ∧
    (uid = ride.organizer →
      onStartRide st sock rideId now =
        ⟨{ st with rides := mapSet st.rides rideId (ride.startRide now) }, sock,
          [.toRoomAll ("ride_" ++ rideId) "ride_started" (.rideStarted rideId now)]⟩ ∧
      (ride.startRide now).status = RideStatus.ACTIVE ∧
      (ride.startRide now).schedule.startTime = now) := by
  constructor
  · intro hne
    have hb : (ride.organizer != uid) = true := by
      simp [bne_iff_ne]
      exact fun e => hne e.symm
    simp [onStartRide, hauth, hride, hb]
  · intro heq
    have hb : (ride.organizer != uid) = false := by
      simp [bne_iff_ne, heq]
    refine ⟨?_, rfl, rfl⟩
    simp [onStartRide, hauth, hride, hb, Ride.startRide]

/-- C1 witness: the organizer starting a `PLANNING` ride at a concrete
state. -/
theorem C1_witness :
    onStartRide stPlan sockAlice "r1" 100 =
      ⟨{ stPlan with rides := mapSet stPlan.rides "r1" (ridePlan.startRide 100) }, sockAlice,
        [.toRoomAll ("ride_" ++ "r1") "ride_started" (.rideStarted "r1" 100)]⟩ :=
  ((C1_start_ride_organizer_only stPlan sockAlice "r1" "alice" ridePlan 100 rfl rfl).2 rfl).1

/-! ### Claim C2 — end_ride on a COMPLETED session -/

/-- C2: counterexample.  The claim says a further organizer `end_ride`
on an already-`COMPLETED` session fails with `InvalidState` and leaves
the end time unchanged.  In the code it succeeds: `ride_ended` is
broadcast and the end time is re-stamped from 50 to 100. -/
theorem C2_counterexample :
    rideDone.status = RideStatus.COMPLETED ∧
    rideDone.schedule.endTime = some 50 ∧
    (onEndRide stDone sockAlice "r1" 100).events =
      [.toRoomAll "ride_r1" "ride_ended" (.rideEnded "r1" (some 100))] ∧
    (mapGet (onEndRide stDone sockAlice "r1" 100).state.rides "r1").map
        (fun r => r.schedule.endTime) = some (some 100) := by
  decide

/-- Shape of a successful organizer `end_ride` call (helper). -/
theorem onEndRide_success (st : ServerState) (sock : Socket) (rideId uid : String)
    (ride : Ride) (now : Nat)
    (hauth : sock.userId = some uid)
    (hride : mapGet st.rides rideId = some ride)
    (horg : uid = ride.organizer) :
    onEndRide st sock rideId now =
      ⟨{ st with rides := mapSet st.rides rideId (ride.endRide now) }, sock,
        [.toRoomAll ("ride_" ++ rideId) "ride_ended" (.rideEnded rideId (some now))]⟩ := by
  have hb : (ride.organizer != uid) = false := by
    simp [bne_iff_ne, horg]
  simp [onEndRide, hauth, hride, hb, Ride.endRide]

/-- C2 (amended): an organizer-authorized `end_ride` succeeds from any
status, including `COMPLETED`; of two sequential `end_ride` calls on
the same session both succeed (the second does not observe any
`InvalidState`), and the second re-stamps the end time, overwriting the
first stamp. -/
theorem C2_end_ride_restamps (st : ServerState) (sock : Socket)
    (rideId uid : String) (ride : Ride) (t1 t2 : Nat)
    (hauth : sock.userId = some uid)
    (hride : mapGet st.rides rideId = some ride)
    (horg : uid = ride.organizer) :
    (onEndRide st sock rideId t1).events =
      [.toRoomAll ("ride_" ++ rideId) "ride_ended" (.rideEnded rideId (some t1))] ∧
    mapGet (onEndRide st sock rideId t1).state.rides rideId = some (ride.endRide t1) ∧
    (ride.endRide t1).status = RideStatus.COMPLETED ∧
    (onEndRide (onEndRide st sock rideId t1).state sock rideId t2).events =
      [.toRoomAll ("ride_" ++ rideId) "ride_ended" (.rideEnded rideId (some t2))] ∧
    mapGet (onEndRide (onEndRide st sock rideId t1).state sock rideId t2).state.rides rideId =
      some ((ride.endRide t1).endRide t2) ∧
    ((ride.endRide t1).endRide t2).schedule.endTime = some t2 := by
  have h1 := onEndRide_success st sock rideId uid ride t1 hauth hride horg
  have hget1 :
      mapGet (onEndRide st sock rideId t1).state.rides rideId = some (ride.endRide t1) := by
    rw [h1]
    exact mapGet_mapSet_self st.rides rideId (ride.endRide t1)
  have h2 := onEndRide_success (onEndRide st sock rideId t1).state sock rideId uid
      (ride.endRide t1) t2 hauth hget1 horg
  refine ⟨?_, hget1, rfl, ?_, ?_, rfl⟩
  · rw [h1]
  · rw [h2]
  · rw [h2]
    exact mapGet_mapSet_self _ rideId _

/-- C2 witness: two sequential organizer `end_ride` calls on a concrete
`PLANNING` ride, at times 10 and then 20. -/
theorem C2_witness :
    (onEndRide stPlan sockAlice "r1" 10).events =
      [.toRoomAll ("ride_" ++ "r1") "ride_ended" (.rideEnded "r1" (some 10))] ∧
    mapGet (onEndRide stPlan sockAlice "r1" 10).state.rides "r1" =
      some (ridePlan.endRide 10) ∧
    (ridePlan.endRide 10).status = RideStatus.COMPLETED ∧
    (onEndRide (onEndRide stPlan sockAlice "r1" 10).state sockAlice "r1" 20).events =
      [.toRoomAll ("ride_" ++ "r1") "ride_ended" (.rideEnded "r1" (some 20))] ∧
    mapGet (onEndRide (onEndRide stPlan sockAlice "r1" 10).state sockAlice "r1" 20).state.rides
        "r1" = some ((ridePlan.endRide 10).endRide 20) ∧
    ((ridePlan.endRide 10).endRide 20).schedule.endTime = some 20 :=
  C2_end_ride_restamps stPlan sockAlice "r1" "alice" ridePlan 10 20 rfl rfl rfl

/-! ### Claim C3 — update_location eligibility -/

/-- C3: counterexample.  The claim says a caller without a qualifying
participant record causes no broadcast.  Caller `bob` has no
participant record at all in the ride (whose status is moreover
`COMPLETED`, not `ACTIVE`), yet the handler still broadcasts
`participant_location` to the room. -/
theorem C3_counterexample :
    rideDone.participants.any (fun p => p.user == "bob") = false ∧
    rideDone.status ≠ RideStatus.ACTIVE ∧
    (onUpdateLocation stDone sockBob "r1" loc0 100).events =
      [.toRoomExcept "ride_r1" 2 "participant_location"
        (.locationEvt "bob" "bob"
          { coordinates := { lat := 1, lng := 2 }, timestamp := 100,
            speed := 0, heading := 0 })] := by
  decide

/-- C3 (amended): `update_location` performs no eligibility
re-validation.  For every authenticated caller on an existing session,
the `participant_location` broadcast to the room except the sender
always occurs, regardless of the caller's participant record and of the
session status; the persisted snapshot is updated exactly when the
caller has a participant record of any status, and when there is no
record the stored ride is unchanged. -/
theorem C3_update_location_no_revalidation (st : ServerState) (sock : Socket)
    (rideId uid : String) (ride : Ride) (loc : LocationInput) (now : Nat)
    (hauth : sock.userId = some uid)
    (hride : mapGet st.rides rideId = some ride) :
    (onUpdateLocation st sock rideId loc now).events =
      [.toRoomExcept ("ride_" ++ rideId) sock.sid "participant_location"
        (.locationEvt uid sock.username
          { coordinates := loc.coordinates, timestamp := now,
            speed := loc.speed.getD 0, heading := loc.heading.getD 0 })] ∧
    mapGet (onUpdateLocation st sock rideId loc now).state.rides rideId =
      some (ride.updateParticipantLocation uid loc now) ∧
    ((∀ p ∈ ride.participants, (p.user == uid) = false) →
      ride.updateParticipantLocation uid loc now = ride) := by
  refine ⟨?_, ?_, ?_⟩
  · simp [onUpdateLocation, hauth, hride]
  · simp [onUpdateLocation, hauth, hride]
    exact mapGet_mapSet_self _ rideId _
  · intro hnone
    unfold Ride.updateParticipantLocation
    rw [updateFirst_id _ _ _ hnone]

/-- C3 witness: a `CONFIRMED` participant sending a location on a
concrete state. -/
theorem C3_witness :
    (onUpdateLocation stDone sockAlice "r1" loc0 100).events =
      [.toRoomExcept ("ride_" ++ "r1") sockAlice.sid "participant_location"
        (.locationEvt "alice" sockAlice.username
          { coordinates := loc0.coordinates, timestamp := 100,
            speed := loc0.speed.getD 0, heading := loc0.heading.getD 0 })] ∧
    mapGet (onUpdateLocation stDone sockAlice "r1" loc0 100).state.rides "r1" =
      some (rideDone.updateParticipantLocation "alice" loc0 100) :=
  ⟨(C3_update_location_no_revalidation stDone sockAlice "r1" "alice" rideDone loc0 100
      rfl rfl).1,
   (C3_update_location_no_revalidation stDone sockAlice "r1" "alice" rideDone loc0 100
      rfl rfl).2.1⟩

/-! ### Claim C4 — presence registry and multi-device -/

def userAlice : UserRec :=
  { username := "alice", isOnline := false, lastSeen := 0, friends := [] }

/-- A contact of alice: fred has an `ACCEPTED` friend entry for her. -/
def userFred : UserRec :=
  { username := "fred", isOnline := true, lastSeen := 0,
    friends := [{ user := "alice", status := "ACCEPTED" }] }

def stC4 : ServerState :=
  { rides := [], users := [("alice", userAlice), ("fred", userFred)],
    connectedUsers := [("fred", 5)], rideRooms := [], ioRooms := [] }

/-- The credential verifier used in the C4 scenario. -/
def verifyTok : String → Option String :=
  fun t => if t == "tokA" then some "alice" else none

/-- Alice's first device (socket 1) authenticates. -/
def c4auth1 : HandlerResult :=
  onAuthenticate stC4 { sid := 1, userId := none, username := "" } (some "tokA") verifyTok 10

/-- Alice's second device (socket 2) authenticates while the first is
still connected. -/
def c4auth2 : HandlerResult :=
  onAuthenticate c4auth1.state { sid := 2, userId := none, username := "" } (some "tokA")
    verifyTok 11

/-- The first device disconnects while the second stays connected. -/
def c4disc : HandlerResult := onDisconnect c4auth2.state c4auth1.socket 12

/-- C4: counterexample.  With two authenticated connections for the
same identity, the registry keeps only the latest socket (the first
binding is overwritten); when the first device then disconnects — with
the second still connected — the identity's binding is removed
entirely, the user is marked offline, and the offline notification is
sent to the connected contact.  This contradicts the claim that only
the last connection's closure marks the identity offline. -/
theorem C4_counterexample :
    c4auth1.socket.userId = some "alice" ∧
    c4auth2.socket.userId = some "alice" ∧
    mapGet c4auth2.state.connectedUsers "alice" = some 2 ∧
    mapGet c4disc.state.connectedUsers "alice" = none ∧
    (mapGet c4disc.state.users "alice").map (fun u => u.isOnline) = some false ∧
    c4disc.events = [.emit 5 "friend_offline" (.friendPresence "alice" "alice")] := by
  decide

/-- C4 (amended): the registry keeps at most one connection per
identity (`connectedUsers` maps a user id to a single socket id, a
later authentication overwriting the earlier binding), and `disconnect`
of any authenticated connection unconditionally deletes the identity's
binding and marks the persisted user offline, with no check for other
live connections of the same identity. -/
theorem C4_presence_single_connection (st : ServerState) (sock : Socket)
    (uid : String) (now : Nat)
    (hauth : sock.userId = some uid) :
    mapGet (onDisconnect st sock now).state.connectedUsers uid = none ∧
    (∀ u, mapGet st.users uid = some u →
      mapGet (onDisconnect st sock now).state.users uid =
        some { u with isOnline := false, lastSeen := now }) := by
  constructor
  · simp [onDisconnect, hauth]
    exact mapGet_mapDelete_self st.connectedUsers uid
  · intro u hu
    simp [onDisconnect, hauth, hu]
    exact mapGet_mapSet_self _ uid _

/-- C4 witness: disconnecting alice's first device at the concrete C4
state. -/
theorem C4_witness :
    mapGet (onDisconnect c4auth2.state c4auth1.socket 12).state.connectedUsers "alice" =
      none ∧
    mapGet (onDisconnect c4auth2.state c4auth1.socket 12).state.users "alice" =
      some { username := "alice", isOnline := false, lastSeen := 12,
             friends := ([] : List Friend) } :=
  ⟨(C4_presence_single_connection c4auth2.state c4auth1.socket "alice" 12 (by decide)).1,
   (C4_presence_single_connection c4auth2.state c4auth1.socket "alice" 12 (by decide)).2
     { username := "alice", isOnline := true, lastSeen := 11, friends := [] } (by decide)⟩

/-! ### Claim C5 — join_ride validation -/

/-- C5: for every authenticated caller, `join_ride` on a session id
that exists with no participant record for the caller fails with the
not-a-participant error and changes nothing (in particular the caller
is not added to the transient membership set, whatever its current
contents); `join_ride` on a non-existent session id fails with the
ride-not-found error. -/
theorem C5_join_requires_participant (st : ServerState) (sock : Socket)
    (rideId uid : String)
    (hauth : sock.userId = some uid) :
    (mapGet st.rides rideId = none →
      onJoinRide st sock rideId =
        ⟨st, sock, [.emit sock.sid "error" (.errMsg "Ride not found")]⟩) ∧
    (∀ ride, mapGet st.rides rideId = some ride →
      ride.participants.any (fun p => p.user == uid) = false →
      onJoinRide st sock rideId =
        ⟨st, sock, [.emit sock.sid "error" (.errMsg "Not a participant of this ride")]⟩) := by
  constructor
  · intro hnone
    simp [onJoinRide, hauth, hnone]
  · intro ride hride hnot
    simp [onJoinRide, hauth, hride, hnot]

/-- C5 witness: bob (no participant record) attempting to join the
concrete ride, and joining an unknown session id. -/
theorem C5_witness :
    onJoinRide stDone sockBob "r1" =
      ⟨stDone, sockBob, [.emit sockBob.sid "error" (.errMsg "Not a participant of this ride")]⟩ ∧
    onJoinRide stDone sockBob "nope" =
      ⟨stDone, sockBob, [.emit sockBob.sid "error" (.errMsg "Ride not found")]⟩ :=
  ⟨(C5_join_requires_participant stDone sockBob "r1" "bob" rfl).2 rideDone rfl (by decide),
   (C5_join_requires_participant stDone sockBob "nope" "bob" rfl).1 rfl⟩

/-! ### Claim C6 — join idempotence -/

/-- C6: join is idempotent.  For an eligible caller, a second
`join_ride` leaves the transient membership set and the socket.io
delivery group exactly as after the first one, and is acknowledged as
a success (`joined_ride`), not an error. -/
theorem C6_join_idempotent (st : ServerState) (sock : Socket)
    (rideId uid : String) (ride : Ride)
    (hauth : sock.userId = some uid)
    (hride : mapGet st.rides rideId = some ride)
    (hpart : ride.participants.any (fun p => p.user == uid) = true) :
    onJoinRide (onJoinRide st sock rideId).state sock rideId =
      ⟨(onJoinRide st sock rideId).state, sock,
        [.emit sock.sid "joined_ride" (.joinedRide rideId),
         .toRoomExcept ("ride_" ++ rideId) sock.sid "participant_joined"
           (.participantEvt uid sock.username)]⟩ := by
  have hstate :
      (onJoinRide st sock rideId).state =
        { st with ioRooms := groupAdd st.ioRooms ("ride_" ++ rideId) sock.sid,
                  rideRooms := groupAdd st.rideRooms rideId uid } := by
    simp [onJoinRide, hauth, hride, hpart]
  rw [hstate]
  simp [onJoinRide, hauth, hride, hpart, groupAdd_idem]

/-- C6 witness: alice joins the concrete ride twice. -/
theorem C6_witness :
    onJoinRide (onJoinRide stDone sockAlice "r1").state sockAlice "r1" =
      ⟨(onJoinRide stDone sockAlice "r1").state, sockAlice,
        [.emit sockAlice.sid "joined_ride" (.joinedRide "r1"),
         .toRoomExcept ("ride_" ++ "r1") sockAlice.sid "participant_joined"
           (.participantEvt "alice" sockAlice.username)]⟩ :=
  C6_join_idempotent stDone sockAlice "r1" "alice" rideDone rfl rfl (by decide)

/-! ### Claim C7 — disconnect and leave prune room membership -/

/-- C7: disconnect removes the identity from every room's transient
membership set and discards entries whose set becomes empty, so every
surviving entry of the room map after a disconnect is a non-empty set
not containing the identity; `leave_ride` likewise removes the caller
from the named room and discards the entry when emptied (so the entry,
if still observable, is non-empty and without the caller), and it
preserves the all-entries-non-empty invariant. -/
theorem C7_membership_pruning (st : ServerState) (sock : Socket)
    (uid rideId : String) (now : Nat)
    (hauth : sock.userId = some uid) :
    (∀ e ∈ (onDisconnect st sock now).state.rideRooms, uid ∉ e.2 ∧ e.2 ≠ []) ∧
    (∀ s, mapGet (onLeaveRide st sock rideId).state.rideRooms rideId = some s →
      uid ∉ s ∧ s ≠ []) ∧
    ((∀ e ∈ st.rideRooms, e.2 ≠ []) →
      ∀ e ∈ (onLeaveRide st sock rideId).state.rideRooms, e.2 ≠ []) := by
  have hdisc : (onDisconnect st sock now).state.rideRooms = pruneUser st.rideRooms uid := by
    simp [onDisconnect, hauth]
  refine ⟨?_, ?_, ?_⟩
  · rw [hdisc]
    intro e he
    unfold pruneUser at he
    rw [List.mem_filter] at he
    obtain ⟨hmap, hne⟩ := he
    rw [List.mem_map] at hmap
    obtain ⟨f, _, rfl⟩ := hmap
    constructor
    · intro hmem
      unfold setDelete at hmem
      rw [List.mem_filter] at hmem
      exact absurd hmem.2 (by simp)
    · intro hnil
      rw [hnil] at hne
      simp at hne
  · intro s hs
    rcases hmg : mapGet st.rideRooms rideId with _ | s0
    · have hl : (onLeaveRide st sock rideId).state.rideRooms = st.rideRooms := by
        simp [onLeaveRide, hauth, hmg]
      rw [hl, hmg] at hs
      exact Option.noConfusion hs
    · by_cases hlen : ((setDelete s0 uid).length == 0) = true
      · have hl : (onLeaveRide st sock rideId).state.rideRooms =
            mapDelete st.rideRooms rideId := by
          simp [onLeaveRide, hauth, hmg, hlen]
        rw [hl, mapGet_mapDelete_self] at hs
        exact Option.noConfusion hs
      · have hl : (onLeaveRide st sock rideId).state.rideRooms =
            mapSet st.rideRooms rideId (setDelete s0 uid) := by
          simp [onLeaveRide, hauth, hmg, hlen]
        rw [hl, mapGet_mapSet_self] at hs
        injection hs with hs1
        subst hs1
        constructor
        · intro hmem
          unfold setDelete at hmem
          rw [List.mem_filter] at hmem
          exact absurd hmem.2 (by simp)
        · intro hnil
          exact hlen (by simp [hnil])
  · intro hinv e he
    rcases hmg : mapGet st.rideRooms rideId with _ | s0
    · have hl : (onLeaveRide st sock rideId).state.rideRooms = st.rideRooms := by
        simp [onLeaveRide, hauth, hmg]
      rw [hl] at he
      exact hinv e he
    · by_cases hlen : ((setDelete s0 uid).length == 0) = true
      · have hl : (onLeaveRide st sock rideId).state.rideRooms =
            mapDelete st.rideRooms rideId := by
          simp [onLeaveRide, hauth, hmg, hlen]
        rw [hl] at he
        unfold mapDelete at he
        rw [List.mem_filter] at he
        exact hinv e he.1
      · have hl : (onLeaveRide st sock rideId).state.rideRooms =
            mapSet st.rideRooms rideId (setDelete s0 uid) := by
          simp [onLeaveRide, hauth, hmg, hlen]
        rw [hl] at he
        rcases mem_mapSet he with h1 | h1
        · exact hinv e h1
        · rw [h1]
          intro hnil
          apply hlen
          simp only [Prod.snd] at hnil
          simp [hnil]

/-- A concrete state in which alice belongs to two rooms. -/
def stRooms : ServerState :=
  { rides := [("r1", rideDone)], users := [], connectedUsers := [("alice", 1)],
    rideRooms := [("r1", ["alice", "bob"]), ("r2", ["alice"])],
    ioRooms := [("ride_r1", [1, 2]), ("ride_r2", [1])] }

/-- C7 witness: alice disconnects while a member of two rooms, and
leaves room `r1`, at a concrete state. -/
theorem C7_witness :
    (∀ e ∈ (onDisconnect stRooms sockAlice 99).state.rideRooms,
      "alice" ∉ e.2 ∧ e.2 ≠ []) ∧
    (∀ s, mapGet (onLeaveRide stRooms sockAlice "r1").state.rideRooms "r1" = some s →
      "alice" ∉ s ∧ s ≠ []) :=
  ⟨(C7_membership_pruning stRooms sockAlice "alice" "r1" 99 rfl).1,
   (C7_membership_pruning stRooms sockAlice "alice" "r1" 99 rfl).2.1⟩

/-! ### Claim C8 — send_message and server-assigned timestamps -/

/-- C8: for every authenticated caller posting to an existing session,
the message is appended to the persisted chat log with the
server-assigned timestamp, and `new_message` is broadcast to the full
room including the sender carrying that same server timestamp; the
handler's outcome is independent of any client-supplied `timestamp`
field in the payload. -/
theorem C8_message_server_timestamp (st : ServerState) (sock : Socket)
    (uid : String) (ride : Ride) (data : MessageData) (now : Nat)
    (hauth : sock.userId = some uid)
    (hride : mapGet st.rides data.rideId = some ride) :
    (onSendMessage st sock data now).events =
      [.toRoomAll ("ride_" ++ data.rideId) "new_message"
        (.newMessage uid sock.username data.message (data.type.getD "TEXT") now)] ∧
    mapGet (onSendMessage st sock data now).state.rides data.rideId =
      some { ride with chat := ride.chat ++
        [{ user := uid, message := data.message, timestamp := now,
           type := data.type.getD "TEXT" }] } ∧
    (∀ ts, onSendMessage st sock { data with timestamp := ts } now =
      onSendMessage st sock data now) := by
  refine ⟨?_, ?_, ?_⟩
  · simp [onSendMessage, hauth, hride]
  · simp [onSendMessage, hauth, hride, Ride.addChatMessage]
    exact mapGet_mapSet_self _ data.rideId _
  · intro ts
    cases data
    rfl

/-- C8 witness: alice posts a message to the concrete ride; a payload
differing only in a client-supplied timestamp gives the same result. -/
theorem C8_witness :
    (onSendMessage stDone sockAlice
        { rideId := "r1", message := "hi", type := none, timestamp := some 777 } 100).events =
      [.toRoomAll ("ride_" ++ "r1") "new_message"
        (.newMessage "alice" sockAlice.username "hi" "TEXT" 100)] ∧
    onSendMessage stDone sockAlice
        { rideId := "r1", message := "hi", type := none, timestamp := some 3 } 100 =
      onSendMessage stDone sockAlice
        { rideId := "r1", message := "hi", type := none, timestamp := some 777 } 100 :=
  ⟨(C8_message_server_timestamp stDone sockAlice "alice" rideDone
      { rideId := "r1", message := "hi", type := none, timestamp := some 777 } 100
      rfl rfl).1,
   (C8_message_server_timestamp stDone sockAlice "alice" rideDone
      { rideId := "r1", message := "hi", type := none, timestamp := some 777 } 100
      rfl rfl).2.2 (some 3)⟩

/-! ### Claim C9 — guard on unauthenticated connections -/

/-- C9: every inbound event other than `authenticate` arriving on an
unauthenticated connection either does nothing or emits a single
`error` event to that connection only; the server state and the socket
are unchanged (so no presence or room mutation and no room broadcast),
and no handler terminates the connection. -/
theorem C9_unauthenticated_silent (st : ServerState) (sock : Socket)
    (ev : Inbound) (now : Nat)
    (hunauth : sock.userId = none) :
    (handleInbound st sock ev now).state = st ∧
    (handleInbound st sock ev now).socket = sock ∧
    ((handleInbound st sock ev now).events = [] ∨
     (handleInbound st sock ev now).events =
       [.emit sock.sid "error" (.errMsg "Not authenticated")]) := by
  cases ev with
  | join_ride rideId =>
    refine ⟨?_, ?_, Or.inr ?_⟩ <;> simp [handleInbound, onJoinRide, hunauth]
  | leave_ride rideId =>
    refine ⟨?_, ?_, Or.inl ?_⟩ <;> simp [handleInbound, onLeaveRide, hunauth]
  | update_location rideId location =>
    refine ⟨?_, ?_, Or.inl ?_⟩ <;> simp [handleInbound, onUpdateLocation, hunauth]
  | send_message data =>
    refine ⟨?_, ?_, Or.inl ?_⟩ <;> simp [handleInbound, onSendMessage, hunauth]
  | start_ride rideId =>
    refine ⟨?_, ?_, Or.inl ?_⟩ <;> simp [handleInbound, onStartRide, hunauth]
  | end_ride rideId =>
    refine ⟨?_, ?_, Or.inl ?_⟩ <;> simp [handleInbound, onEndRide, hunauth]
  | typing rideId isTyping =>
    refine ⟨?_, ?_, Or.inl ?_⟩ <;> simp [handleInbound, onTyping, hunauth]
  | disconnect =>
    refine ⟨?_, ?_, Or.inl ?_⟩ <;> simp [handleInbound, onDisconnect, hunauth]

/-- C9 witness: an unauthenticated socket sends `start_ride` and
`join_ride` at a concrete state. -/
theorem C9_witness :
    (handleInbound stDone sockAnon (.start_ride "r1") 100).state = stDone ∧
    ((handleInbound stDone sockAnon (.join_ride "r1") 100).events = [] ∨
     (handleInbound stDone sockAnon (.join_ride "r1") 100).events =
       [.emit sockAnon.sid "error" (.errMsg "Not authenticated")]) :=
  ⟨(C9_unauthenticated_silent stDone sockAnon (.start_ride "r1") 100 rfl).1,
   (C9_unauthenticated_silent stDone sockAnon (.join_ride "r1") 100 rfl).2.2⟩

/-! ### Claim C10 — the single-primary-photo invariant -/

/-- C10: after any car save (the pre-save hook runs on every save,
including the one issued by `addPhoto`) at most one photo in the car's
photo array carries the primary flag, even when the pre-hook input has
several; and `addPhoto` with a primary photo clears the flag on all
previously stored photos, leaving exactly the cleared old photos
followed by the new primary one. -/
theorem C10_single_primary :
    (∀ c : Car, (carPreSave c).primaryCount ≤ 1) ∧
    (∀ (c : Car) (pd : Photo), (c.addPhoto pd).primaryCount ≤ 1) ∧
    (∀ (c : Car) (pd : Photo), pd.isPrimary = true →
      (c.addPhoto pd).photos =
        c.photos.map (fun p => { p with isPrimary := false }) ++ [pd]) := by
  refine ⟨carPreSave_primaryCount, ?_, addPhoto_primary_clears⟩
  intro c pd
  unfold Car.addPhoto
  exact carPreSave_primaryCount _

/-- C10 witness: adding a primary photo to a car that already has a
primary photo, and saving a car with two primary photos. -/
theorem C10_witness :
    (carPreSave
      { owner := "olivia",
        photos := [{ url := "a", caption := "", isPrimary := true, uploadedAt := 0 },
                   { url := "b", caption := "", isPrimary := true, uploadedAt := 1 }] }).primaryCount ≤ 1 ∧
    (Car.addPhoto
      { owner := "olivia",
        photos := [{ url := "a", caption := "", isPrimary := true, uploadedAt := 0 }] }
      { url := "c", caption := "", isPrimary := true, uploadedAt := 2 }).photos =
      [{ url := "a", caption := "", isPrimary := false, uploadedAt := 0 },
       { url := "c", caption := "", isPrimary := true, uploadedAt := 2 }] :=
  ⟨C10_single_primary.1 _,
   C10_single_primary.2.2
     { owner := "olivia",
       photos := [{ url := "a", caption := "", isPrimary := true, uploadedAt := 0 }] }
     { url := "c", caption := "", isPrimary := true, uploadedAt := 2 } rfl⟩

end CarApp
